import Mathlib

/-!
Verification of the query-to-answer orchestration core of the Titanic chat
agent (backend/services/agent.py): code sanitizer, quota classification,
model cascade, exec-with-retry, plot-artifact detection and the response
assembler.  The remote model and the dynamic code execution are modelled as
an oracle; every other step is translated directly from the source.
-/

/-! ## Python string helpers -/

/-- Whitespace accepted by Python regex `\s` and `str.strip` (ASCII fragment;
the source only ever meets ASCII whitespace in fence markers). -/
def isPySpace (c : Char) : Bool :=
  c = ' ' || c = '\t' || c = '\n' || c = '\r' || c = '\x0b' || c = '\x0c'

/-- Right strip: removes the trailing run of Python whitespace. -/
def rstrip : List Char → List Char
  | [] => []
  | c :: t =>
    match rstrip t with
    | [] => if isPySpace c then [] else [c]
    | r => c :: r

/-- Python `str.strip()` on a character list. -/
def pyStrip (cs : List Char) : List Char :=
  rstrip (cs.dropWhile isPySpace)

/-- Python `str.strip()` on a string. -/
def pyStripStr (s : String) : String :=
  String.mk (pyStrip s.toList)

/-- Substring test: Python's `needle in hay`. -/
def containsSub (needle : List Char) : List Char → Bool
  | [] => needle.isPrefixOf []
  | c :: t => needle.isPrefixOf (c :: t) || containsSub needle t

/-- Substring test on strings. -/
def strContainsSub (hay needle : String) : Bool :=
  containsSub needle.toList hay.toList

/-- Python `str.lower()` (ASCII fragment). -/
def pyLower (s : String) : String :=
  String.mk (s.toList.map Char.toLower)

/-! ## Code Sanitizer (`_clean_code`)

`_clean_code` applies two `re.sub` calls with `flags=re.MULTILINE`:
  `re.sub(r"^\s*```(?:python)?\s*\n?", "", raw, flags=re.MULTILINE)`
  `re.sub(r"\n?\s*```\s*$",            "", raw, flags=re.MULTILINE)`
and then strips the result.  Because of MULTILINE and sub-all semantics the
first pattern fires at every line start, the second at every position whose
fence is followed by a line end.  The matchers below realise exactly the
leftmost-greedy matches of those patterns: all quantifiers are forced to the
maximal whitespace run except the final `\s*$` of the second pattern, which
backtracks to the last position where `$` holds. -/

/-- Match of `^\s*```(?:python)?\s*\n?` at a line-start position.
Returns the remainder after the match together with whether the match's last
character is a newline (which decides whether the continuation position is
again a line start). -/
def match1 (cs : List Char) : Option (List Char × Bool) :=
  match cs.dropWhile isPySpace with
  | '`' :: '`' :: '`' :: r2 =>
    let r3 := if List.isPrefixOf "python".toList r2 then r2.drop 6 else r2
    let ws2 := r3.takeWhile isPySpace
    some (r3.dropWhile isPySpace, ws2.getLast? == some '\n')
  | _ => none

/-- Match of `\n?\s*```\s*$` (MULTILINE `$`) at an arbitrary position.
Returns the remainder after the match.  The trailing `\s*` backtracks to the
last index of the whitespace run at which `$` holds: the run's end when the
string ends there, otherwise the last newline inside the run. -/
def match2 (cs : List Char) : Option (List Char) :=
  match cs.dropWhile isPySpace with
  | '`' :: '`' :: '`' :: r2 =>
    let run2 := r2.takeWhile isPySpace
    let r3 := r2.dropWhile isPySpace
    if r3.isEmpty then some []
    else
      match run2.reverse.findIdx? (fun c => c == '\n') with
      | some i => some (run2.drop (run2.length - 1 - i) ++ r3)
      | none => none
  | _ => none

/-- Left-to-right scan of the first substitution; the Boolean tracks whether
the current position is a line start (`^` with MULTILINE).  Fuelled to keep
recursion structural; every match consumes at least three characters, so
fuel equal to the input length always suffices. -/
def sub1Aux : Nat → List Char → Bool → List Char
  | 0, cs, _ => cs
  | _ + 1, [], _ => []
  | fuel + 1, c :: cs, atLS =>
    if atLS then
      match match1 (c :: cs) with
      | some (rest, lastNl) => sub1Aux fuel rest lastNl
      | none => c :: sub1Aux fuel cs (c == '\n')
    else c :: sub1Aux fuel cs (c == '\n')

/-- First substitution of `_clean_code`. -/
def sub1 (cs : List Char) : List Char :=
  sub1Aux cs.length cs true

/-- Left-to-right scan of the second substitution (no anchor, every position
is tried). -/
def sub2Aux : Nat → List Char → List Char
  | 0, cs => cs
  | _ + 1, [] => []
  | fuel + 1, c :: cs =>
    match match2 (c :: cs) with
    | some rest => sub2Aux fuel rest
    | none => c :: sub2Aux fuel cs

/-- Second substitution of `_clean_code`. -/
def sub2 (cs : List Char) : List Char :=
  sub2Aux cs.length cs

/-- Model of `_clean_code`: strip markdown fences and surrounding whitespace. -/
def cleanCode (raw : String) : String :=
  String.mk (pyStrip (sub2 (sub1 raw.toList)))

/-- Does the list start with three backticks? -/
def startsTriple : List Char → Bool
  | '`' :: '`' :: '`' :: _ => true
  | _ => false

/-- Does the list contain three consecutive backticks (a fence marker)? -/
def hasTriple : List Char → Bool
  | [] => false
  | c :: t => startsTriple (c :: t) || hasTriple t

/-! ## Data model -/

/-- The in-memory tabular dataset (`_df`).  Row contents are irrelevant to
the orchestration logic; rows are modelled as lists of integers. -/
abbrev Dataset := List (List Int)

/-- Model of `DataFrame.copy()`: an independent value-semantics snapshot of the
canonical table, handed to each request's execution namespace. -/
def copyDataset (d : Dataset) : Dataset := d

/-- Values bound in the execution namespace dictionary. -/
inductive PyVal where
  | dataset : Dataset → PyVal
  | module : String → PyVal
  | str : String → PyVal
  | obj : String → PyVal
deriving DecidableEq, Repr

/-- The execution namespace: the Python dict passed to `exec`. -/
abbrev NS := List (String × PyVal)

/-- The namespace dict literal built for each request (agent.py lines
252-257): df (a copy), pd, np, plt, sns, PLOT_PATH, os, uuid. -/
def initialNamespace (d : Dataset) (plotPath : String) : NS :=
  [("df", .dataset d), ("pd", .module "pandas"), ("np", .module "numpy"),
   ("plt", .module "matplotlib.pyplot"), ("sns", .module "seaborn"),
   ("PLOT_PATH", .str plotPath), ("os", .module "os"),
   ("uuid", .module "uuid")]

/-- The value returned by `process_query`:
`{"response": str, "image_url": str | None}`. -/
structure QueryResult where
  response : String
  image_url : Option String
deriving DecidableEq, Repr

/-- The relevant configuration (backend/core/config.py). -/
structure Settings where
  GROQ_API_KEY : String
  GROQ_MODEL : String
deriving DecidableEq, Repr

/-- Process-wide mutable state of the agent module: the canonical dataset
`_df`, the lazily built client `_llm` (identified by the model it is bound
to) and the cascade index `_model_index`. -/
structure GState where
  df : Dataset
  llm : Option String
  modelIndex : Nat
deriving DecidableEq, Repr

/-- A raised Python exception: its class name and its `str(exc)` message. -/
structure PyExc where
  kind : String
  msg : String
deriving DecidableEq, Repr

/-- A failure raised by one `exec` of generated code.  The handlers around
both exec sites are `except Exception`, which does not catch the
BaseException subclasses outside Exception: `exc` is an ordinary Exception
carrying its `str(exc)` message; `fatal` is a failure those handlers cannot
catch — a raised SystemExit or KeyboardInterrupt (and a process-terminating
call such as `os._exit`, available to the code through the `os` binding, is
likewise modelled as a failure escaping the handler). -/
inductive ExecErr where
  | exc : String → ExecErr
  | fatal : PyExc → ExecErr
deriving DecidableEq, Repr

/-- The exception of an execution outcome that escapes `except Exception`,
if any. -/
def isFatal : Option ExecErr → Option PyExc
  | some (.fatal e) => some e
  | _ => none

/-- The caught message of an execution outcome (`str(exc)` of an ordinary
Exception), if any. -/
def execExcMsg : Option ExecErr → Option String
  | some (.exc m) => some m
  | _ => none

/-- Outcome of one `exec` of generated code: the captured stdout (also the
output produced before a raise), the raised failure if any, the
namespace after execution (`exec` mutates the dict in place) and the state
of the file at the reserved plot path (size in bytes, `none` = absent). -/
structure ExecOut where
  stdout : String
  err : Option ExecErr
  ns : NS
  file : Option Nat
deriving DecidableEq, Repr

/-- Environment oracle: the behaviour of the remote model (indexed by how
many invocations this request has already made) and of dynamic code
execution (a function of the code, the namespace and the plot-file state).
A model invocation fails only with ordinary Exceptions, as the client
library raises; the executed code may additionally fail with an uncatchable
`ExecErr.fatal`. -/
structure Oracle where
  llm : Nat → Except String String
  exec : String → NS → Option Nat → ExecOut

/-- Record of one remote model invocation: the model identifier the client
was bound to and how many conversational turns were sent (2 for a first
attempt, 3 for a retry with error context). -/
structure LlmCall where
  model : String
  msgCount : Nat
deriving DecidableEq, Repr

/-- Record of one `exec` call: the code that ran, the namespace object it
was given and the plot-file state when it started. -/
structure ExecCall where
  code : String
  ns : NS
  fileBefore : Option Nat
deriving DecidableEq, Repr

/-- Full observable outcome of one request: the returned value, the module
state afterwards, the traces of model and exec calls, and the file left at
the reserved plot path. -/
structure POut where
  result : QueryResult
  g : GState
  llmCalls : List LlmCall
  execCalls : List ExecCall
  plotFile : Option Nat
deriving DecidableEq, Repr

/-- Outcome of one whole request: either `process_query` returns a
`{response, image_url}` value, or an exception propagates out of it
unhandled (`raised` keeps the exception together with the module state and
the traces of the calls made before the propagation). -/
inductive PQOut where
  | ok : POut → PQOut
  | raised : PyExc → GState → List LlmCall → List ExecCall → PQOut
deriving DecidableEq, Repr

/-- Module state after the request, on either outcome. -/
def PQOut.gstate : PQOut → GState
  | .ok out => out.g
  | .raised _ g _ _ => g

/-- Model invocations made during the request, on either outcome. -/
def PQOut.llmCalls : PQOut → List LlmCall
  | .ok out => out.llmCalls
  | .raised _ _ ls _ => ls

/-- Executions made during the request, on either outcome. -/
def PQOut.execCalls : PQOut → List ExecCall
  | .ok out => out.execCalls
  | .raised _ _ _ ecs => ecs

/-! ## Model Gateway -/

/-- The `_MODEL_CASCADE` list: ordered fallback list of Groq model identifiers. -/
def MODEL_CASCADE : List String :=
  ["llama-3.3-70b-versatile", "llama3-70b-8192", "mixtral-8x7b-32768",
   "llama3-8b-8192"]

/-- The `_QUOTA_PHRASES` tuple: indicator substrings of quota / rate-limit errors. -/
def QUOTA_PHRASES : List String :=
  ["RESOURCE_EXHAUSTED", "quota", "rate limit", "429", "Too Many Requests"]

/-- Model of `_is_quota_error`: case-insensitive containment of any quota phrase in
the error message. -/
def isQuotaError (msg : String) : Bool :=
  QUOTA_PHRASES.any (fun p => strContainsSub (pyLower msg) (pyLower p))

/-- The ValueError message raised by `_get_llm` when no key is configured. -/
def configErrorMsg : String :=
  "GROQ_API_KEY is not configured. Add it to your .env file and restart the server."

/-- Model of `_get_llm`: return the existing client, or build one from the settings;
raises ValueError when no API key is configured. -/
def getLlm (st : Settings) (g : GState) : Except PyExc (String × GState) :=
  match g.llm with
  | some m => .ok (m, g)
  | none =>
    if st.GROQ_API_KEY = "" then
      .error ⟨"ValueError", configErrorMsg⟩
    else
      .ok (st.GROQ_MODEL, { g with llm := some st.GROQ_MODEL })

/-- Model of `_try_next_model`: advance the cascade index; `none` when exhausted,
otherwise rebuild the client against the next identifier. -/
def tryNextModel (g : GState) : Option String × GState :=
  let i := g.modelIndex + 1
  if MODEL_CASCADE.length ≤ i then
    (none, { g with modelIndex := i })
  else
    let m := MODEL_CASCADE.getD i ""
    (some m, { g with modelIndex := i, llm := some m })

/-! ## Response texts (verbatim from agent.py) -/

/-- Terminal message when the whole cascade is rate-limited. -/
def rateLimitedMsg : String :=
  "⚠️ All Groq models are currently rate-limited. Please wait a minute and try again, or see [Groq rate limits](https://console.groq.com/settings/limits)."

/-- Terminal message for a non-quota API failure. -/
def apiErrorMsg (e : String) : String :=
  "Could not contact Gemini API: " ++ e

/-- Message when the cascade loop ends without producing code. -/
def noResponseMsg : String :=
  "No response generated. Please try again."

/-- Message when the retry round-trip fails with a quota-classified error. -/
def quotaReachedMsg : String :=
  "⚠️ API quota reached for today. Please wait a moment and try again."

/-- Assembler case 2: no text and no artifact. -/
def noOutputMsg : String :=
  "The analysis ran but produced no printable output. Try rephrasing."

/-- Assembler case 3: no text but an artifact exists. -/
def vizMsg : String :=
  "Here is the visualisation:"

/-- Assembler case 1: the formatted execution-error response. -/
def errResponse (e : String) : String :=
  "I ran into an error while analysing your request: `" ++ e ++ "`\n\nPlease try rephrasing your question."

/-! ## Per-request plumbing -/

/-- The `STATIC_DIR` constant (absolute path computed from `__file__` at import time;
modelled as a fixed path). -/
def STATIC_DIR : String := "/app/backend/static"

/-- The reserved filename `plot_` ++ hex token ++ `.png`, with the random hex
token supplied as a parameter. -/
def plotFnameOf (tok : String) : String :=
  "plot_" ++ tok ++ ".png"

/-- The reserved path: `STATIC_DIR` joined with the reserved filename. -/
def plotPathOf (tok : String) : String :=
  STATIC_DIR ++ "/" ++ plotFnameOf tok

/-- Python truthiness of `err_msg` (`None` and the empty string are falsy). -/
def truthyErr : Option String → Bool
  | none => false
  | some e => e != ""

/-- Result of the code-generation cascade loop
(`for _attempt in range(len(_MODEL_CASCADE))`). -/
inductive CascadeOut where
  | early : QueryResult → GState → List LlmCall → CascadeOut
  | code : String → String → GState → List LlmCall → CascadeOut
  | exhausted : GState → List LlmCall → CascadeOut

/-- The cascade loop: invoke the model; on success break with the sanitized
code; on a quota-classified failure advance the cascade (returning the
rate-limited terminal when it is exhausted); on any other failure return the
API-error terminal.  The fuel is the loop bound `len(_MODEL_CASCADE)`; the
oracle is consulted at the index given by how many calls were made so far. -/
def cascadeLoop (o : Oracle) : Nat → String → GState → List LlmCall → CascadeOut
  | 0, _, g, calls => .exhausted g calls
  | fuel + 1, m, g, calls =>
    match o.llm calls.length with
    | .ok content => .code (cleanCode content) m g (calls ++ [⟨m, 2⟩])
    | .error exc =>
      if isQuotaError exc then
        match tryNextModel g with
        | (none, g1) => .early ⟨rateLimitedMsg, none⟩ g1 (calls ++ [⟨m, 2⟩])
        | (some m1, g1) => cascadeLoop o fuel m1 g1 (calls ++ [⟨m, 2⟩])
      else .early ⟨apiErrorMsg exc, none⟩ g (calls ++ [⟨m, 2⟩])

/-- Plot-artifact check and response assembly (agent.py lines 302-323):
a non-empty file at the plot path becomes the image reference; a zero-byte
file is deleted; then the precedence ladder over (error, text, image) picks
the response text.  Returns the result and the file left at the path. -/
def finishRequest (text : String) (errMsg : Option String) (fs : Option Nat)
    (fname : String) : QueryResult × Option Nat :=
  let image : Option String :=
    match fs with
    | some n => if 0 < n then some ("/static/" ++ fname) else none
    | none => none
  let fsF : Option Nat :=
    match fs with
    | some n => if 0 < n then some n else none
    | none => none
  let response : String :=
    if truthyErr errMsg && (text == "") then errResponse (errMsg.getD "")
    else if (text == "") && image.isNone then noOutputMsg
    else if (text == "") && image.isSome then vizMsg
    else text
  (⟨response, image⟩, fsF)

/-- Execution phase of `process_query`: first exec of the generated code,
the single retry round-trip when the first exec raised a truthy error while
capturing no text (with the quota-classified early return), then the
artifact check and assembler. -/
def runExecPhase (o : Oracle) (tok code m : String) (g2 : GState)
    (calls : List LlmCall) : PQOut :=
  let ns0 := initialNamespace (copyDataset g2.df) (plotPathOf tok)
  let e1 := o.exec code ns0 none
  let ec1 : ExecCall := ⟨code, ns0, none⟩
  match isFatal e1.err with
  | some exc => .raised exc g2 calls [ec1]
  | none =>
    let errMsg1 := execExcMsg e1.err
    let text1 := pyStripStr e1.stdout
    if truthyErr errMsg1 && (text1 == "") then
      match o.llm calls.length with
      | .error exc2 =>
        if isQuotaError exc2 then
          .ok ⟨⟨quotaReachedMsg, none⟩, g2, calls ++ [⟨m, 3⟩], [ec1], e1.file⟩
        else
          let rf := finishRequest text1 (some exc2) e1.file (plotFnameOf tok)
          .ok ⟨rf.1, g2, calls ++ [⟨m, 3⟩], [ec1], rf.2⟩
      | .ok content2 =>
        let code2 := cleanCode content2
        let e2 := o.exec code2 e1.ns e1.file
        let ec2 : ExecCall := ⟨code2, e1.ns, e1.file⟩
        match isFatal e2.err with
        | some exc => .raised exc g2 (calls ++ [⟨m, 3⟩]) [ec1, ec2]
        | none =>
          match execExcMsg e2.err with
          | some m2 =>
            if isQuotaError m2 then
              .ok ⟨⟨quotaReachedMsg, none⟩, g2, calls ++ [⟨m, 3⟩], [ec1, ec2],
                e2.file⟩
            else
              let rf := finishRequest text1 (some m2) e2.file (plotFnameOf tok)
              .ok ⟨rf.1, g2, calls ++ [⟨m, 3⟩], [ec1, ec2], rf.2⟩
          | none =>
            let rf := finishRequest (pyStripStr e2.stdout) none e2.file
              (plotFnameOf tok)
            .ok ⟨rf.1, g2, calls ++ [⟨m, 3⟩], [ec1, ec2], rf.2⟩
    else
      let rf := finishRequest text1 errMsg1 e1.file (plotFnameOf tok)
      .ok ⟨rf.1, g2, calls, [ec1], rf.2⟩

/-- Model of `process_query`: the full per-request path.  A `raised` result
models a Python exception escaping `process_query` unhandled (the two
`except Exception` handlers around the exec sites do not catch a
SystemExit or KeyboardInterrupt raised by the generated code); the `ok`
payload is the returned `{response, image_url}` value together with the
module state, traces and residual plot file.  The random filename token is
the `tok` parameter; the model's behaviour and code execution live in the
oracle, so the question string itself is not interpreted here. -/
def processQueryE (o : Oracle) (st : Settings) (g0 : GState)
    (query : String) (tok : String) : PQOut :=
  match getLlm st g0 with
  | .error e =>
    if e.kind = "ValueError" then
      .ok ⟨⟨e.msg, none⟩, g0, [], [], none⟩
    else
      .raised e g0 [] []
  | .ok (m0, g1) =>
    match cascadeLoop o MODEL_CASCADE.length m0 g1 [] with
    | .early r g2 calls => .ok ⟨r, g2, calls, [], none⟩
    | .exhausted g2 calls => .ok ⟨⟨noResponseMsg, none⟩, g2, calls, [], none⟩
    | .code c m g2 calls => runExecPhase o tok c m g2 calls

/-! ## Sanitizer lemmas -/

/-- A whitespace-trimmed suffix that starts with a fence marker witnesses a
fence marker in the original list. -/
theorem hasTriple_of_dropWhile (cs r : List Char)
    (h : cs.dropWhile isPySpace = '`' :: '`' :: '`' :: r) :
    hasTriple cs = true := by
  induction cs with
  | nil => simp [List.dropWhile] at h
  | cons c t ih =>
    rw [List.dropWhile_cons] at h
    by_cases hc : isPySpace c
    · rw [if_pos hc] at h
      simp [hasTriple, ih h]
    · rw [if_neg hc] at h
      injection h with h1 h2
      subst h1; subst h2
      simp [hasTriple, startsTriple]

/-- Without a fence marker the leading-fence pattern cannot match. -/
theorem match1_eq_none (cs : List Char) (h : hasTriple cs = false) :
    match1 cs = none := by
  unfold match1
  split
  · next r2 heq => exact absurd (hasTriple_of_dropWhile cs r2 heq) (by simp [h])
  · rfl

/-- Without a fence marker the trailing-fence pattern cannot match. -/
theorem match2_eq_none (cs : List Char) (h : hasTriple cs = false) :
    match2 cs = none := by
  unfold match2
  split
  · next r2 heq => exact absurd (hasTriple_of_dropWhile cs r2 heq) (by simp [h])
  · rfl

/-- A list without a fence marker has a tail without a fence marker. -/
theorem hasTriple_tail (c : Char) (t : List Char)
    (h : hasTriple (c :: t) = false) : hasTriple t = false := by
  simp [hasTriple] at h
  exact h.2

/-- The first substitution is the identity on inputs without a fence. -/
theorem sub1Aux_id (fuel : Nat) : ∀ (cs : List Char) (b : Bool),
    hasTriple cs = false → sub1Aux fuel cs b = cs := by
  induction fuel with
  | zero => intro cs b _; rfl
  | succ n ih =>
    intro cs b h
    cases cs with
    | nil => rfl
    | cons c t =>
      have ht := hasTriple_tail c t h
      cases b
      · simp [sub1Aux, ih t (c == '\n') ht]
      · simp [sub1Aux, match1_eq_none _ h, ih t (c == '\n') ht]

/-- The second substitution is the identity on inputs without a fence. -/
theorem sub2Aux_id (fuel : Nat) : ∀ (cs : List Char),
    hasTriple cs = false → sub2Aux fuel cs = cs := by
  induction fuel with
  | zero => intro cs _; rfl
  | succ n ih =>
    intro cs h
    cases cs with
    | nil => rfl
    | cons c t =>
      have ht := hasTriple_tail c t h
      simp [sub2Aux, match2_eq_none _ h, ih t ht]

/-- The head of a `dropWhile` result fails the predicate. -/
theorem dropWhile_head_false (p : Char → Bool) (l : List Char) (c : Char)
    (t : List Char) (h : l.dropWhile p = c :: t) : p c = false := by
  induction l with
  | nil => simp [List.dropWhile] at h
  | cons a l ih =>
    rw [List.dropWhile_cons] at h
    by_cases ha : p a
    · rw [if_pos ha] at h; exact ih h
    · rw [if_neg ha] at h
      injection h with h1 _
      subst h1
      simp only [Bool.not_eq_true] at ha
      exact ha

/-- Right strip is idempotent. -/
theorem rstrip_rstrip (l : List Char) : rstrip (rstrip l) = rstrip l := by
  induction l with
  | nil => rfl
  | cons c t ih =>
    cases hr : rstrip t with
    | nil =>
      by_cases hc : isPySpace c <;> simp [rstrip, hr, hc]
    | cons x xs =>
      rw [hr] at ih
      have h1 : rstrip (c :: t) = c :: x :: xs := by rw [rstrip, hr]
      rw [h1, rstrip, ih]

/-- Right strip of a list with a non-space head yields a list that left-strips
to itself. -/
theorem head_not_space_rstrip (c : Char) (t : List Char)
    (hc : isPySpace c = false) :
    (rstrip (c :: t)).dropWhile isPySpace = rstrip (c :: t) := by
  rw [rstrip]
  cases rstrip t with
  | nil => simp [List.dropWhile_cons, hc]
  | cons x xs => simp [List.dropWhile_cons, hc]

/-- Python `strip` is idempotent. -/
theorem pyStrip_idem (l : List Char) : pyStrip (pyStrip l) = pyStrip l := by
  unfold pyStrip
  have h1 : (rstrip (l.dropWhile isPySpace)).dropWhile isPySpace
      = rstrip (l.dropWhile isPySpace) := by
    cases hd : l.dropWhile isPySpace with
    | nil => simp [rstrip]
    | cons c t =>
      exact head_not_space_rstrip c t (dropWhile_head_false isPySpace l c t hd)
  rw [h1, rstrip_rstrip]

/-- C2 counterexample: the Code Sanitizer is not idempotent.  On the input
"``````x" the first cleaning removes only the leading fence (the second
fence, glued right after it, is not at a scanning position of the MULTILINE
sub), leaving "```x"; a second cleaning removes the newly exposed leading
fence, yielding "x". -/
theorem clean_code_idempotence_cex :
    cleanCode (cleanCode "``````x") ≠ cleanCode "``````x" := by decide

/-- C2 (amended): `clean` is idempotent on every input whose cleaned form
contains no fence marker; in general a marker surviving one cleaning can be
removed by the next, so unrestricted idempotence fails, and interior fence
markers at line starts or line ends are removed rather than left untouched. -/
theorem clean_code_idempotent_no_fence (s : String)
    (h : hasTriple (cleanCode s).toList = false) :
    cleanCode (cleanCode s) = cleanCode s := by
  have hl : (cleanCode s).toList = pyStrip (sub2 (sub1 s.toList)) := rfl
  rw [hl] at h
  show String.mk (pyStrip (sub2 (sub1 (cleanCode s).toList))) = cleanCode s
  rw [hl]
  have e1 : sub1 (pyStrip (sub2 (sub1 s.toList)))
      = pyStrip (sub2 (sub1 s.toList)) := by
    rw [sub1]; exact sub1Aux_id _ _ true h
  have e2 : sub2 (pyStrip (sub2 (sub1 s.toList)))
      = pyStrip (sub2 (sub1 s.toList)) := by
    rw [sub2]; exact sub2Aux_id _ _ h
  rw [e1, e2, pyStrip_idem]
  rfl

/-- Witness for C2's amended theorem at the canonical fenced input. -/
theorem clean_code_idempotent_no_fence_witness :
    hasTriple (cleanCode "```python\nprint(1)\n```").toList = false ∧
      cleanCode (cleanCode "```python\nprint(1)\n```")
        = cleanCode "```python\nprint(1)\n```" :=
  ⟨by decide, clean_code_idempotent_no_fence "```python\nprint(1)\n```" (by decide)⟩

/-! ## Gateway and loop lemmas -/

/-- The only exception `_get_llm` raises is the configuration ValueError. -/
theorem getLlm_error_kind (st : Settings) (g : GState) (e : PyExc)
    (h : getLlm st g = .error e) : e.kind = "ValueError" := by
  unfold getLlm at h
  cases hl : g.llm with
  | some m => rw [hl] at h; exact absurd h (by simp)
  | none =>
    rw [hl] at h
    by_cases hk : st.GROQ_API_KEY = ""
    · rw [if_pos hk] at h
      injection h with h1
      rw [← h1]
    · rw [if_neg hk] at h; exact absurd h (by simp)

/-- Building the client never touches the canonical dataset. -/
theorem getLlm_ok_df (st : Settings) (g : GState) (m : String) (g1 : GState)
    (h : getLlm st g = .ok (m, g1)) : g1.df = g.df := by
  unfold getLlm at h
  cases hl : g.llm with
  | some m0 =>
    rw [hl] at h
    injection h with h1
    injection h1 with _ h3
    rw [← h3]
  | none =>
    rw [hl] at h
    by_cases hk : st.GROQ_API_KEY = ""
    · rw [if_pos hk] at h; exact absurd h (by simp)
    · rw [if_neg hk] at h
      injection h with h1
      injection h1 with _ h3
      rw [← h3]

/-- Advancing the cascade never touches the canonical dataset. -/
theorem tryNextModel_df (g : GState) : (tryNextModel g).2.df = g.df := by
  unfold tryNextModel
  by_cases h : MODEL_CASCADE.length ≤ g.modelIndex + 1 <;> simp [h]

/-- Module state carried by a cascade-loop outcome. -/
def CascadeOut.gstate : CascadeOut → GState
  | .early _ g _ => g
  | .code _ _ g _ => g
  | .exhausted g _ => g


/-- The cascade loop never touches the canonical dataset. -/
theorem cascadeLoop_df (o : Oracle) : ∀ (fuel : Nat) (m : String) (g : GState)
    (calls : List LlmCall), (cascadeLoop o fuel m g calls).gstate.df = g.df := by
  intro fuel
  induction fuel with
  | zero => intro m g calls; rfl
  | succ n ih =>
    intro m g calls
    rw [cascadeLoop]
    cases h : o.llm calls.length with
    | ok content => rfl
    | error exc =>
      dsimp only
      by_cases hq : isQuotaError exc
      · rw [if_pos hq]
        cases htn : tryNextModel g with
        | mk fst g1 =>
          have hdf : g1.df = g.df := by
            have h2 := tryNextModel_df g
            rw [htn] at h2
            exact h2
          cases fst with
          | none => exact hdf
          | some m1 =>
            exact (ih m1 g1 (calls ++ [⟨m, 2⟩])).trans hdf
      · rw [if_neg hq]
        rfl

/-- If the model answers the first invocation of the loop, the loop breaks
at once with the sanitized code. -/
theorem cascadeLoop_first_ok (o : Oracle) (fuel : Nat) (m : String) (g : GState)
    (calls : List LlmCall) (content : String)
    (h : o.llm calls.length = .ok content) :
    cascadeLoop o (fuel + 1) m g calls
      = .code (cleanCode content) m g (calls ++ [⟨m, 2⟩]) := by
  rw [cascadeLoop, h]

/-- On a fresh client with a configured key, a first-call model success
routes the request into the execution phase with the settings' model. -/
theorem processQueryE_code (o : Oracle) (st : Settings) (g : GState)
    (q tok c : String) (hkey : ¬ st.GROQ_API_KEY = "") (hllm : g.llm = none)
    (h0 : o.llm 0 = .ok c) :
    processQueryE o st g q tok =
      runExecPhase o tok (cleanCode c) st.GROQ_MODEL
        ⟨g.df, some st.GROQ_MODEL, g.modelIndex⟩ [⟨st.GROQ_MODEL, 2⟩] := by
  have hgl : getLlm st g
      = .ok (st.GROQ_MODEL, ⟨g.df, some st.GROQ_MODEL, g.modelIndex⟩) := by
    unfold getLlm
    rw [hllm]
    dsimp only
    rw [if_neg hkey]
  have hc : cascadeLoop o MODEL_CASCADE.length st.GROQ_MODEL
      ⟨g.df, some st.GROQ_MODEL, g.modelIndex⟩ [] =
      .code (cleanCode c) st.GROQ_MODEL ⟨g.df, some st.GROQ_MODEL, g.modelIndex⟩
        [⟨st.GROQ_MODEL, 2⟩] := by
    have h4 : MODEL_CASCADE.length = 3 + 1 := rfl
    rw [h4]
    exact cascadeLoop_first_ok o 3 st.GROQ_MODEL
      ⟨g.df, some st.GROQ_MODEL, g.modelIndex⟩ [] c h0
  unfold processQueryE
  rw [hgl]
  dsimp only
  simp only [hc]

/-- The execution phase leaves the module state it was given unchanged, on
either outcome. -/
theorem runExecPhase_gstate (o : Oracle) (tok code m : String) (g2 : GState)
    (calls : List LlmCall) :
    (runExecPhase o tok code m g2 calls).gstate = g2 := by
  unfold runExecPhase
  dsimp only
  repeat' split
  all_goals rfl

/-- The first exec call of the execution phase always receives the freshly
built namespace over the request's dataset copy with no plot file, on
either outcome. -/
theorem runExecPhase_execCalls_head (o : Oracle) (tok code m : String)
    (g2 : GState) (calls : List LlmCall) :
    (runExecPhase o tok code m g2 calls).execCalls.head? =
      some ⟨code, initialNamespace (copyDataset g2.df) (plotPathOf tok), none⟩ := by
  unfold runExecPhase
  dsimp only
  repeat' split
  all_goals rfl

/-- When no execution fails uncatchably, the execution phase returns a
value. -/
theorem runExecPhase_ok (o : Oracle) (tok code m : String) (g2 : GState)
    (calls : List LlmCall)
    (hexc : ∀ c ns f, isFatal (o.exec c ns f).err = none) :
    ∃ out, runExecPhase o tok code m g2 calls = .ok out := by
  unfold runExecPhase
  simp only [hexc]
  split
  · split
    · split
      · exact ⟨_, rfl⟩
      · exact ⟨_, rfl⟩
    · split
      · split
        · exact ⟨_, rfl⟩
        · exact ⟨_, rfl⟩
      · exact ⟨_, rfl⟩
  · exact ⟨_, rfl⟩

/-- Oracle for the C5 counterexample: the generated code raises SystemExit
(for instance via `sys.exit()` or `exit()`), which `except Exception` does
not catch. -/
def oC5 : Oracle :=
  ⟨fun _ => .ok "import sys\nsys.exit()",
   fun _ ns _ => ⟨"", some (.fatal ⟨"SystemExit", ""⟩), ns, none⟩⟩

/-- C5 counterexample: a generated-code behaviour whose execution raises
SystemExit escapes `process_query` unhandled — the per-request path does
not resolve to a `{text, image}` value, because the source's handlers are
`except Exception` and SystemExit is a BaseException outside Exception. -/
theorem process_query_total_cex :
    processQueryE oC5 ⟨"key", "m"⟩ ⟨[[9]], none, 0⟩ "q" "t" =
      .raised ⟨"SystemExit", ""⟩ ⟨[[9]], some "m", 0⟩ [⟨"m", 2⟩]
        [⟨"import sys\nsys.exit()",
          initialNamespace (copyDataset [[9]]) (plotPathOf "t"), none⟩] ∧
    ¬ ∃ out, processQueryE oC5 ⟨"key", "m"⟩ ⟨[[9]], none, 0⟩ "q" "t"
        = PQOut.ok out := by
  refine ⟨by decide, ?_⟩
  intro h
  obtain ⟨out, hout⟩ := h
  have hr : processQueryE oC5 ⟨"key", "m"⟩ ⟨[[9]], none, 0⟩ "q" "t" =
      PQOut.raised ⟨"SystemExit", ""⟩ ⟨[[9]], some "m", 0⟩ [⟨"m", 2⟩]
        [⟨"import sys\nsys.exit()",
          initialNamespace (copyDataset [[9]]) (plotPathOf "t"), none⟩] := by
    decide
  rw [hr] at hout
  exact PQOut.noConfusion hout

/-- C5 (amended): totality of the per-request path for every behaviour of
the generated code whose raised failures are ordinary Exceptions — the
class the source's `except Exception` handlers catch.  Under that
restriction `process_query` always returns a `{response, image_url}`
value; the only internal raise site, the configuration ValueError of
`_get_llm`, is always caught by its handler.  (A BaseException outside
Exception raised by the generated code — SystemExit, KeyboardInterrupt, or
a process-terminating `os._exit` through the provided `os` binding —
escapes unhandled, as the counterexample shows.) -/
theorem process_query_total (o : Oracle) (st : Settings) (g : GState)
    (q tok : String)
    (hexc : ∀ code ns f, isFatal (o.exec code ns f).err = none) :
    ∃ out, processQueryE o st g q tok = .ok out := by
  unfold processQueryE
  cases hg : getLlm st g with
  | error e =>
    dsimp only
    rw [getLlm_error_kind st g e hg]
    simp
  | ok p =>
    obtain ⟨m, g1⟩ := p
    dsimp only
    cases cascadeLoop o MODEL_CASCADE.length m g1 [] with
    | early r g2 calls => exact ⟨_, rfl⟩
    | code c m2 g2 calls => exact runExecPhase_ok o tok c m2 g2 calls hexc
    | exhausted g2 calls => exact ⟨_, rfl⟩

/-- Oracle for the C5 witness: ordinary behaviour, no uncatchable failure. -/
def oW5 : Oracle :=
  ⟨fun _ => .ok "print(1)", fun _ ns f => ⟨"1", none, ns, f⟩⟩

/-- Witness for C5's amended theorem at a concrete Exception-only oracle. -/
theorem process_query_total_witness :
    ∃ out, processQueryE oW5 ⟨"key", "llama-3.3-70b-versatile"⟩
        ⟨[[1]], none, 0⟩ "How many passengers?" "ab12cd34" = .ok out :=
  process_query_total oW5 ⟨"key", "llama-3.3-70b-versatile"⟩ ⟨[[1]], none, 0⟩
    "How many passengers?" "ab12cd34" (fun _ _ _ => rfl)

/-- C7: with no credential configured and no client built yet, the request
returns the configuration-error text with no image, no model invocation
and no execution (and the module state is untouched). -/
theorem missing_credential_config_error (o : Oracle) (st : Settings)
    (g : GState) (q tok : String) (hkey : st.GROQ_API_KEY = "")
    (hllm : g.llm = none) :
    processQueryE o st g q tok = .ok ⟨⟨configErrorMsg, none⟩, g, [], [], none⟩ := by
  unfold processQueryE getLlm
  rw [hllm]
  dsimp only
  rw [if_pos hkey]
  rfl

/-- Oracle for the C7 witness (its model call would fail if it were ever
consulted). -/
def oW7 : Oracle :=
  ⟨fun _ => .error "unreachable", fun _ ns f => ⟨"", none, ns, f⟩⟩

/-- Witness for C7 at a concrete empty-key configuration. -/
theorem missing_credential_config_error_witness :
    processQueryE oW7 ⟨"", "llama-3.3-70b-versatile"⟩ ⟨[[0]], none, 0⟩
        "What percentage of passengers were male?" "ab12cd34" =
      .ok ⟨⟨configErrorMsg, none⟩, ⟨[[0]], none, 0⟩, [], [], none⟩ :=
  missing_credential_config_error oW7 ⟨"", "llama-3.3-70b-versatile"⟩
    ⟨[[0]], none, 0⟩ "What percentage of passengers were male?" "ab12cd34" rfl rfl

/-- C8: dataset isolation.  Every request leaves the canonical process-wide
table exactly as it was loaded at startup, and the generated code is
executed against the request's own copy of that table (the `df` binding of
the namespace handed to the sandbox is the copy of the canonical table). -/
theorem dataset_isolation (o : Oracle) (st : Settings) (g : GState)
    (q tok : String) (out : POut) (h : processQueryE o st g q tok = .ok out) :
    out.g.df = g.df ∧
      ∀ ec, out.execCalls.head? = some ec →
        List.lookup "df" ec.ns = some (.dataset (copyDataset g.df)) := by
  unfold processQueryE at h
  cases hg : getLlm st g with
  | error e =>
    rw [hg] at h
    dsimp only at h
    rw [if_pos (getLlm_error_kind st g e hg)] at h
    injection h with h1
    subst h1
    refine ⟨rfl, ?_⟩
    intro ec hec
    simp at hec
  | ok p =>
    obtain ⟨m, g1⟩ := p
    have hdf1 : g1.df = g.df := getLlm_ok_df st g m g1 hg
    rw [hg] at h
    dsimp only at h
    have hdfc := cascadeLoop_df o MODEL_CASCADE.length m g1 []
    cases hcl : cascadeLoop o MODEL_CASCADE.length m g1 [] with
    | early r g2 calls =>
      rw [hcl] at h hdfc
      dsimp only [CascadeOut.gstate] at hdfc
      dsimp only at h
      injection h with h1
      subst h1
      refine ⟨hdfc.trans hdf1, ?_⟩
      intro ec hec
      simp at hec
    | exhausted g2 calls =>
      rw [hcl] at h hdfc
      dsimp only [CascadeOut.gstate] at hdfc
      dsimp only at h
      injection h with h1
      subst h1
      refine ⟨hdfc.trans hdf1, ?_⟩
      intro ec hec
      simp at hec
    | code c m2 g2 calls =>
      rw [hcl] at h hdfc
      dsimp only [CascadeOut.gstate] at hdfc
      dsimp only at h
      have hgs := runExecPhase_gstate o tok c m2 g2 calls
      rw [h] at hgs
      dsimp only [PQOut.gstate] at hgs
      have hh := runExecPhase_execCalls_head o tok c m2 g2 calls
      rw [h] at hh
      dsimp only [PQOut.execCalls] at hh
      constructor
      · rw [hgs]
        exact hdfc.trans hdf1
      · intro ec hec
        rw [hh] at hec
        injection hec with h2
        subst h2
        show List.lookup "df" (initialNamespace (copyDataset g2.df) (plotPathOf tok))
            = some (.dataset (copyDataset g.df))
        rw [show g2.df = g.df from hdfc.trans hdf1]
        rfl

/-- Oracle for the C8 witness: the executed code wildly mutates its
namespace (drops the dataset entirely) and still cannot touch the canonical
table. -/
def oW8 : Oracle :=
  ⟨fun _ => .ok "df.drop(0)",
   fun _ _ _ => ⟨"done", none, [("x", .obj "leftover")], none⟩⟩

/-- Witness for C8 at a concrete mutating execution. -/
theorem dataset_isolation_witness :
    ∃ out, processQueryE oW8 ⟨"key", "llama-3.3-70b-versatile"⟩
        ⟨[[1, 2], [3, 4]], none, 0⟩ "Drop the first row" "ab12cd34" = .ok out ∧
      (out.g.df = [[1, 2], [3, 4]] ∧
        ∀ ec, out.execCalls.head? = some ec →
          List.lookup "df" ec.ns = some (.dataset (copyDataset [[1, 2], [3, 4]]))) :=
  ⟨_, rfl, dataset_isolation oW8 ⟨"key", "llama-3.3-70b-versatile"⟩
    ⟨[[1, 2], [3, 4]], none, 0⟩ "Drop the first row" "ab12cd34" _ rfl⟩

/-- C4: cascade exhaustion.  From a fresh process state (no client built,
cascade index 0) with a configured key, if every model invocation raises a
quota-classified error, exactly `len(_MODEL_CASCADE)` invocations happen and
the request returns the terminal rate-limited text with no image and no
execution. -/
theorem cascade_exhaustion (o : Oracle) (st : Settings) (g : GState)
    (q tok : String) (hkey : ¬ st.GROQ_API_KEY = "") (hllm : g.llm = none)
    (hidx : g.modelIndex = 0)
    (hquota : ∀ n, ∃ e, o.llm n = .error e ∧ isQuotaError e = true) :
    ∃ out, processQueryE o st g q tok = .ok out ∧
      out.result = ⟨rateLimitedMsg, none⟩ ∧
      out.llmCalls.length = MODEL_CASCADE.length ∧
      out.execCalls = [] := by
  obtain ⟨e0, h0, hq0⟩ := hquota 0
  obtain ⟨e1, h1, hq1⟩ := hquota 1
  obtain ⟨e2, h2, hq2⟩ := hquota 2
  obtain ⟨e3, h3, hq3⟩ := hquota 3
  have hgl : getLlm st g = .ok (st.GROQ_MODEL, ⟨g.df, some st.GROQ_MODEL, 0⟩) := by
    unfold getLlm
    rw [hllm]
    dsimp only
    rw [if_neg hkey, hidx]
  have s0 : cascadeLoop o (3 + 1) st.GROQ_MODEL ⟨g.df, some st.GROQ_MODEL, 0⟩ [] =
      cascadeLoop o (2 + 1) "llama3-70b-8192" ⟨g.df, some "llama3-70b-8192", 1⟩
        [⟨st.GROQ_MODEL, 2⟩] := by
    rw [cascadeLoop, List.length_nil, h0]
    dsimp only
    rw [if_pos hq0]
    rfl
  have s1 : cascadeLoop o (2 + 1) "llama3-70b-8192" ⟨g.df, some "llama3-70b-8192", 1⟩
        [⟨st.GROQ_MODEL, 2⟩] =
      cascadeLoop o (1 + 1) "mixtral-8x7b-32768" ⟨g.df, some "mixtral-8x7b-32768", 2⟩
        [⟨st.GROQ_MODEL, 2⟩, ⟨"llama3-70b-8192", 2⟩] := by
    rw [cascadeLoop,
      show [(⟨st.GROQ_MODEL, 2⟩ : LlmCall)].length = 1 from rfl, h1]
    dsimp only
    rw [if_pos hq1]
    rfl
  have s2 : cascadeLoop o (1 + 1) "mixtral-8x7b-32768" ⟨g.df, some "mixtral-8x7b-32768", 2⟩
        [⟨st.GROQ_MODEL, 2⟩, ⟨"llama3-70b-8192", 2⟩] =
      cascadeLoop o (0 + 1) "llama3-8b-8192" ⟨g.df, some "llama3-8b-8192", 3⟩
        [⟨st.GROQ_MODEL, 2⟩, ⟨"llama3-70b-8192", 2⟩, ⟨"mixtral-8x7b-32768", 2⟩] := by
    rw [cascadeLoop,
      show [(⟨st.GROQ_MODEL, 2⟩ : LlmCall), ⟨"llama3-70b-8192", 2⟩].length = 2 from rfl,
      h2]
    dsimp only
    rw [if_pos hq2]
    rfl
  have s3 : cascadeLoop o (0 + 1) "llama3-8b-8192" ⟨g.df, some "llama3-8b-8192", 3⟩
        [⟨st.GROQ_MODEL, 2⟩, ⟨"llama3-70b-8192", 2⟩, ⟨"mixtral-8x7b-32768", 2⟩] =
      .early ⟨rateLimitedMsg, none⟩ ⟨g.df, some "llama3-8b-8192", 4⟩
        [⟨st.GROQ_MODEL, 2⟩, ⟨"llama3-70b-8192", 2⟩, ⟨"mixtral-8x7b-32768", 2⟩,
         ⟨"llama3-8b-8192", 2⟩] := by
    rw [cascadeLoop,
      show [(⟨st.GROQ_MODEL, 2⟩ : LlmCall), ⟨"llama3-70b-8192", 2⟩,
        ⟨"mixtral-8x7b-32768", 2⟩].length = 3 from rfl, h3]
    dsimp only
    rw [if_pos hq3]
    rfl
  refine ⟨⟨⟨rateLimitedMsg, none⟩, ⟨g.df, some "llama3-8b-8192", 4⟩,
    [⟨st.GROQ_MODEL, 2⟩, ⟨"llama3-70b-8192", 2⟩, ⟨"mixtral-8x7b-32768", 2⟩,
     ⟨"llama3-8b-8192", 2⟩], [], none⟩, ?_, rfl, rfl, rfl⟩
  unfold processQueryE
  rw [hgl]
  dsimp only
  rw [show MODEL_CASCADE.length = 3 + 1 from rfl, s0, s1, s2, s3]

/-- Oracle for the C4 witness: the model endpoint is rate-limited on every
attempt; execution would succeed if it were ever reached. -/
def oW4 : Oracle :=
  ⟨fun _ => .error "429", fun _ ns f => ⟨"unreachable", none, ns, f⟩⟩

/-- Witness for C4 at a concrete always-quota oracle and fresh state. -/
theorem cascade_exhaustion_witness :
    ∃ out, processQueryE oW4 ⟨"key", "llama-3.3-70b-versatile"⟩
        ⟨[[1]], none, 0⟩ "Show a histogram of ages" "ab12cd34" = .ok out ∧
      out.result = ⟨rateLimitedMsg, none⟩ ∧
      out.llmCalls.length = MODEL_CASCADE.length ∧
      out.execCalls = [] :=
  cascade_exhaustion oW4 ⟨"key", "llama-3.3-70b-versatile"⟩ ⟨[[1]], none, 0⟩
    "Show a histogram of ages" "ab12cd34" (by decide) rfl rfl
    (fun n => ⟨"429", rfl, by decide⟩)

/-- C9: the retry executes the regenerated code in the very same namespace
object left by the failed first execution, with the plot-file state the
first execution left behind: the dataset is not re-copied and the namespace
is not rebuilt for the retry — whatever the retry's execution then does. -/
theorem retry_shares_namespace (o : Oracle) (st : Settings) (g : GState)
    (q tok c1 c2 sout msg1 : String) (sns : NS) (sfile : Option Nat)
    (hkey : ¬ st.GROQ_API_KEY = "") (hllm : g.llm = none)
    (h0 : o.llm 0 = .ok c1) (h1 : o.llm 1 = .ok c2)
    (hE : o.exec (cleanCode c1)
        (initialNamespace (copyDataset g.df) (plotPathOf tok)) none
      = ⟨sout, some (.exc msg1), sns, sfile⟩)
    (hmsg : ¬ msg1 = "") (htxt : pyStripStr sout = "") :
    (processQueryE o st g q tok).execCalls =
      [⟨cleanCode c1, initialNamespace (copyDataset g.df) (plotPathOf tok), none⟩,
       ⟨cleanCode c2, sns, sfile⟩] := by
  have herr : truthyErr (some msg1) = true := bne_iff_ne.mpr hmsg
  rw [processQueryE_code o st g q tok c1 hkey hllm h0]
  unfold runExecPhase
  dsimp only
  rw [hE]
  dsimp only
  rw [show isFatal (some (ExecErr.exc msg1)) = none from rfl]
  dsimp only
  rw [show execExcMsg (some (ExecErr.exc msg1)) = some msg1 from rfl]
  rw [herr, htxt]
  simp only [Bool.true_and]
  rw [show ("" == "") = true from rfl, if_pos rfl]
  rw [show [(⟨st.GROQ_MODEL, 2⟩ : LlmCall)].length = 1 from rfl, h1]
  dsimp only
  cases hf : isFatal (o.exec (cleanCode c2) sns sfile).err with
  | some exc => rfl
  | none =>
    dsimp only
    cases hm : execExcMsg (o.exec (cleanCode c2) sns sfile).err with
    | none => rfl
    | some m2 =>
      dsimp only
      by_cases hq2 : isQuotaError m2
      · rw [if_pos hq2]
        rfl
      · rw [if_neg hq2]
        rfl

/-- Oracle for the C9 witness: the first execution fails after mutating the
namespace and writing a zero-byte file; the regenerated code then runs. -/
def oW9 : Oracle :=
  ⟨fun n => .ok (if n = 0 then "first code" else "second code"),
   fun c ns f =>
     if c = "first code" then
       ⟨"", some (.exc "NameError: x is not defined"),
        ns ++ [("x", .obj "mutation")], some 0⟩
     else ⟨"done", none, ns, f⟩⟩

/-- Witness for C9 at a concrete failing-then-retrying oracle. -/
theorem retry_shares_namespace_witness :
    (processQueryE oW9 ⟨"key", "llama-3.3-70b-versatile"⟩ ⟨[[7]], none, 0⟩
        "Show average age" "ab12cd34").execCalls =
      [⟨cleanCode "first code",
        initialNamespace (copyDataset [[7]]) (plotPathOf "ab12cd34"), none⟩,
       ⟨cleanCode "second code",
        initialNamespace (copyDataset [[7]]) (plotPathOf "ab12cd34")
          ++ [("x", .obj "mutation")], some 0⟩] :=
  retry_shares_namespace oW9 ⟨"key", "llama-3.3-70b-versatile"⟩ ⟨[[7]], none, 0⟩
    "Show average age" "ab12cd34" "first code" "second code" ""
    "NameError: x is not defined"
    (initialNamespace (copyDataset [[7]]) (plotPathOf "ab12cd34")
      ++ [("x", .obj "mutation")]) (some 0)
    (by decide) rfl rfl rfl (by decide) (by decide) rfl

/-- C10: for every request that reaches execution, the namespace bound into
the sandbox holds, beyond the six documented bindings df, pd, np, plt, sns
and PLOT_PATH, also the modules os and uuid — whatever the execution then
does. -/
theorem sandbox_namespace_bindings (o : Oracle) (st : Settings) (g : GState)
    (q tok c : String) (hkey : ¬ st.GROQ_API_KEY = "") (hllm : g.llm = none)
    (h0 : o.llm 0 = .ok c) :
    ∃ ec, (processQueryE o st g q tok).execCalls.head? = some ec ∧
      ec.ns = initialNamespace (copyDataset g.df) (plotPathOf tok) ∧
      List.lookup "os" ec.ns = some (.module "os") ∧
      List.lookup "uuid" ec.ns = some (.module "uuid") ∧
      ec.ns.map Prod.fst
        = ["df", "pd", "np", "plt", "sns", "PLOT_PATH", "os", "uuid"] := by
  rw [processQueryE_code o st g q tok c hkey hllm h0]
  refine ⟨⟨cleanCode c, initialNamespace (copyDataset g.df) (plotPathOf tok), none⟩,
    ?_, rfl, rfl, rfl, rfl⟩
  exact runExecPhase_execCalls_head o tok (cleanCode c) st.GROQ_MODEL
    ⟨g.df, some st.GROQ_MODEL, g.modelIndex⟩ [⟨st.GROQ_MODEL, 2⟩]

/-- Oracle for the C10 witness: a plain statistics request. -/
def oW10 : Oracle :=
  ⟨fun _ => .ok "print(df.shape)", fun _ ns f => ⟨"(891, 12)", none, ns, f⟩⟩

/-- Witness for C10 at a concrete request reaching execution. -/
theorem sandbox_namespace_bindings_witness :
    ∃ ec, (processQueryE oW10 ⟨"key", "llama-3.3-70b-versatile"⟩
        ⟨[[5]], none, 0⟩ "How many rows?" "ab12cd34").execCalls.head? = some ec ∧
      ec.ns = initialNamespace (copyDataset [[5]]) (plotPathOf "ab12cd34") ∧
      List.lookup "os" ec.ns = some (.module "os") ∧
      List.lookup "uuid" ec.ns = some (.module "uuid") ∧
      ec.ns.map Prod.fst
        = ["df", "pd", "np", "plt", "sns", "PLOT_PATH", "os", "uuid"] :=
  sandbox_namespace_bindings oW10 ⟨"key", "llama-3.3-70b-versatile"⟩
    ⟨[[5]], none, 0⟩ "How many rows?" "ab12cd34" "print(df.shape)"
    (by decide) rfl rfl

/-! ## Response Assembler lemmas -/

deriving instance DecidableEq for Except

/-- With no text and no error, a non-empty artifact yields the fixed
visualisation message with the artifact attached and the file kept. -/
theorem finishRequest_noText_noErr (n : Nat) (hn : 0 < n) (fname : String) :
    finishRequest "" none (some n) fname
      = (⟨vizMsg, some ("/static/" ++ fname)⟩, some n) := by
  unfold finishRequest
  dsimp only
  rw [if_pos hn, if_pos hn]
  rfl

/-- With no text and a non-empty error, the error response wins but the
non-empty artifact is still attached as the image and the file kept. -/
theorem finishRequest_err (e : String) (he : ¬ e = "") (n : Nat) (hn : 0 < n)
    (fname : String) :
    finishRequest "" (some e) (some n) fname
      = (⟨errResponse e, some ("/static/" ++ fname)⟩, some n) := by
  have hbne : (e != "") = true := bne_iff_ne.mpr he
  unfold finishRequest
  dsimp only
  rw [if_pos hn, if_pos hn]
  rw [show (truthyErr (some e) && ("" == "")) = ((e != "") && ("" == "")) from rfl,
    hbne]
  rfl

/-- With no text and a non-empty error, the response embeds the error,
whatever the artifact state. -/
theorem finishRequest_response_err (e : String) (he : ¬ e = "")
    (fs : Option Nat) (fname : String) :
    (finishRequest "" (some e) fs fname).1.response = errResponse e := by
  have hbne : (e != "") = true := bne_iff_ne.mpr he
  unfold finishRequest
  dsimp only
  rw [show (truthyErr (some e) && ("" == "")) = ((e != "") && ("" == "")) from rfl,
    hbne]
  rfl

/-- Artifact-detection contract of one request outcome: a non-empty file at
the output path becomes the image reference and is kept; a zero-byte file
yields no image and is deleted. -/
def detectsArtifact (tok : String) (n : Nat) (out : POut) : Prop :=
  (0 < n → out.result.image_url = some ("/static/" ++ plotFnameOf tok) ∧
    out.plotFile = some n) ∧
  (n = 0 → out.result.image_url = none ∧ out.plotFile = none)

/-- The assembler realises the artifact-detection contract whenever it runs. -/
theorem finishRequest_detect (text : String) (errMsg : Option String) (n : Nat)
    (fname : String) :
    (0 < n → (finishRequest text errMsg (some n) fname).1.image_url
        = some ("/static/" ++ fname) ∧
      (finishRequest text errMsg (some n) fname).2 = some n) ∧
    (n = 0 → (finishRequest text errMsg (some n) fname).1.image_url = none ∧
      (finishRequest text errMsg (some n) fname).2 = none) := by
  unfold finishRequest
  dsimp only
  constructor
  · intro hn
    rw [if_pos hn, if_pos hn]
    exact ⟨rfl, rfl⟩
  · intro hn
    subst hn
    rw [if_neg (by omega), if_neg (by omega)]
    exact ⟨rfl, rfl⟩

/-! ## C1: Response Assembler precedence, case 3 -/

/-- Oracle for the C1 counterexample: the generated code writes a non-empty
artifact, raises before printing anything, and the retry's model call then
fails with a non-quota transport error. -/
def oC1 : Oracle :=
  ⟨fun n => if n = 0 then .ok "A" else .error "netdown",
   fun _ ns _ => ⟨"", some (.exc "boom"), ns, some 4⟩⟩

/-- C1 counterexample: a request whose (retried) execution leaves no text
while a non-empty artifact sits at the reserved path, but which ended in an
unrecovered error, returns the formatted error message — not the fixed
visualisation message — with the artifact still attached as the image. -/
theorem viz_precedence_cex :
    processQueryE oC1 ⟨"key", "m"⟩ ⟨[[1]], none, 0⟩ "q" "t" =
      .ok ⟨⟨errResponse "netdown", some ("/static/" ++ plotFnameOf "t")⟩,
           ⟨[[1]], some "m", 0⟩, [⟨"m", 2⟩, ⟨"m", 3⟩],
           [⟨"A", initialNamespace (copyDataset [[1]]) (plotPathOf "t"), none⟩],
           some 4⟩ ∧
      errResponse "netdown" ≠ vizMsg :=
  ⟨by decide, by decide⟩

/-- C1 (amended): for a request whose (possibly retried) execution leaves
no captured text while a non-empty artifact exists at the reserved path:
when it reaches the assembler with no unrecovered truthy error — whether
the first execution succeeded silently or the retry's execution did — the
fixed visualisation message is returned with the artifact attached; when it
reaches the assembler with an unrecovered non-empty error (retry's model
call or execution failed non-quota-classified), the formatted error message
takes precedence as the text, with the artifact still attached as the
image; and when a quota-classified retry failure (model call or execution)
aborts the request early, the artifact check is skipped: the quota-reached
text is returned with a null image and the artifact file is left in place. -/
theorem viz_precedence_amended (o : Oracle) (st : Settings) (g : GState)
    (q tok c1 : String) (hkey : ¬ st.GROQ_API_KEY = "") (hllm : g.llm = none)
    (h0 : o.llm 0 = .ok c1) :
    (∀ sout sns n,
      o.exec (cleanCode c1)
          (initialNamespace (copyDataset g.df) (plotPathOf tok)) none
        = ⟨sout, none, sns, some n⟩ →
      pyStripStr sout = "" → 0 < n →
      ∃ out, processQueryE o st g q tok = .ok out ∧
        out.result = ⟨vizMsg, some ("/static/" ++ plotFnameOf tok)⟩ ∧
        out.plotFile = some n) ∧
    (∀ sout msg1 sns sfile c2 sout2 sns2 n,
      o.exec (cleanCode c1)
          (initialNamespace (copyDataset g.df) (plotPathOf tok)) none
        = ⟨sout, some (.exc msg1), sns, sfile⟩ →
      ¬ msg1 = "" → pyStripStr sout = "" → o.llm 1 = .ok c2 →
      o.exec (cleanCode c2) sns sfile = ⟨sout2, none, sns2, some n⟩ →
      pyStripStr sout2 = "" → 0 < n →
      ∃ out, processQueryE o st g q tok = .ok out ∧
        out.result = ⟨vizMsg, some ("/static/" ++ plotFnameOf tok)⟩ ∧
        out.plotFile = some n) ∧
    (∀ sout msg1 sns n ε2,
      o.exec (cleanCode c1)
          (initialNamespace (copyDataset g.df) (plotPathOf tok)) none
        = ⟨sout, some (.exc msg1), sns, some n⟩ →
      ¬ msg1 = "" → pyStripStr sout = "" → o.llm 1 = .error ε2 →
      isQuotaError ε2 = false → ¬ ε2 = "" → 0 < n →
      ∃ out, processQueryE o st g q tok = .ok out ∧
        out.result = ⟨errResponse ε2, some ("/static/" ++ plotFnameOf tok)⟩ ∧
        out.plotFile = some n) ∧
    (∀ sout msg1 sns sfile c2 sout2 sns2 n ε2,
      o.exec (cleanCode c1)
          (initialNamespace (copyDataset g.df) (plotPathOf tok)) none
        = ⟨sout, some (.exc msg1), sns, sfile⟩ →
      ¬ msg1 = "" → pyStripStr sout = "" → o.llm 1 = .ok c2 →
      o.exec (cleanCode c2) sns sfile = ⟨sout2, some (.exc ε2), sns2, some n⟩ →
      isQuotaError ε2 = false → ¬ ε2 = "" → 0 < n →
      ∃ out, processQueryE o st g q tok = .ok out ∧
        out.result = ⟨errResponse ε2, some ("/static/" ++ plotFnameOf tok)⟩ ∧
        out.plotFile = some n) ∧
    (∀ sout msg1 sns sfile ε2,
      o.exec (cleanCode c1)
          (initialNamespace (copyDataset g.df) (plotPathOf tok)) none
        = ⟨sout, some (.exc msg1), sns, sfile⟩ →
      ¬ msg1 = "" → pyStripStr sout = "" → o.llm 1 = .error ε2 →
      isQuotaError ε2 = true →
      ∃ out, processQueryE o st g q tok = .ok out ∧
        out.result = ⟨quotaReachedMsg, none⟩ ∧
        out.plotFile = sfile) ∧
    (∀ sout msg1 sns sfile c2 sout2 sns2 sfile2 ε2,
      o.exec (cleanCode c1)
          (initialNamespace (copyDataset g.df) (plotPathOf tok)) none
        = ⟨sout, some (.exc msg1), sns, sfile⟩ →
      ¬ msg1 = "" → pyStripStr sout = "" → o.llm 1 = .ok c2 →
      o.exec (cleanCode c2) sns sfile = ⟨sout2, some (.exc ε2), sns2, sfile2⟩ →
      isQuotaError ε2 = true →
      ∃ out, processQueryE o st g q tok = .ok out ∧
        out.result = ⟨quotaReachedMsg, none⟩ ∧
        out.plotFile = sfile2) := by
  refine ⟨?_, ?_, ?_, ?_, ?_, ?_⟩
  · intro sout sns n hE htxt hn
    rw [processQueryE_code o st g q tok c1 hkey hllm h0]
    unfold runExecPhase
    dsimp only
    rw [hE]
    dsimp only [isFatal, execExcMsg]
    rw [htxt]
    rw [if_neg (by simp [truthyErr])]
    rw [finishRequest_noText_noErr n hn (plotFnameOf tok)]
    exact ⟨_, rfl, rfl, rfl⟩
  · intro sout msg1 sns sfile c2 sout2 sns2 n hE hmsg htxt h1 hE2 htxt2 hn
    have herr : truthyErr (some msg1) = true := bne_iff_ne.mpr hmsg
    rw [processQueryE_code o st g q tok c1 hkey hllm h0]
    unfold runExecPhase
    dsimp only
    rw [hE]
    dsimp only [isFatal, execExcMsg]
    rw [herr, htxt]
    simp only [Bool.true_and]
    rw [show ("" == "") = true from rfl, if_pos rfl]
    rw [show [(⟨st.GROQ_MODEL, 2⟩ : LlmCall)].length = 1 from rfl, h1]
    dsimp only
    rw [hE2]
    dsimp only [isFatal, execExcMsg]
    rw [htxt2]
    rw [finishRequest_noText_noErr n hn (plotFnameOf tok)]
    exact ⟨_, rfl, rfl, rfl⟩
  · intro sout msg1 sns n ε2 hE hmsg htxt h1e hq hne hn
    have herr : truthyErr (some msg1) = true := bne_iff_ne.mpr hmsg
    rw [processQueryE_code o st g q tok c1 hkey hllm h0]
    unfold runExecPhase
    dsimp only
    rw [hE]
    dsimp only [isFatal, execExcMsg]
    rw [herr, htxt]
    simp only [Bool.true_and]
    rw [show ("" == "") = true from rfl, if_pos rfl]
    rw [show [(⟨st.GROQ_MODEL, 2⟩ : LlmCall)].length = 1 from rfl, h1e]
    dsimp only
    rw [if_neg (by simp [hq])]
    rw [finishRequest_err ε2 hne n hn (plotFnameOf tok)]
    exact ⟨_, rfl, rfl, rfl⟩
  · intro sout msg1 sns sfile c2 sout2 sns2 n ε2 hE hmsg htxt h1 hE2 hq hne hn
    have herr : truthyErr (some msg1) = true := bne_iff_ne.mpr hmsg
    rw [processQueryE_code o st g q tok c1 hkey hllm h0]
    unfold runExecPhase
    dsimp only
    rw [hE]
    dsimp only [isFatal, execExcMsg]
    rw [herr, htxt]
    simp only [Bool.true_and]
    rw [show ("" == "") = true from rfl, if_pos rfl]
    rw [show [(⟨st.GROQ_MODEL, 2⟩ : LlmCall)].length = 1 from rfl, h1]
    dsimp only
    rw [hE2]
    dsimp only [isFatal, execExcMsg]
    rw [if_neg (by simp [hq])]
    rw [finishRequest_err ε2 hne n hn (plotFnameOf tok)]
    exact ⟨_, rfl, rfl, rfl⟩
  · intro sout msg1 sns sfile ε2 hE hmsg htxt h1e hq
    have herr : truthyErr (some msg1) = true := bne_iff_ne.mpr hmsg
    rw [processQueryE_code o st g q tok c1 hkey hllm h0]
    unfold runExecPhase
    dsimp only
    rw [hE]
    dsimp only [isFatal, execExcMsg]
    rw [herr, htxt]
    simp only [Bool.true_and]
    rw [show ("" == "") = true from rfl, if_pos rfl]
    rw [show [(⟨st.GROQ_MODEL, 2⟩ : LlmCall)].length = 1 from rfl, h1e]
    dsimp only
    rw [if_pos hq]
    exact ⟨_, rfl, rfl, rfl⟩
  · intro sout msg1 sns sfile c2 sout2 sns2 sfile2 ε2 hE hmsg htxt h1 hE2 hq
    have herr : truthyErr (some msg1) = true := bne_iff_ne.mpr hmsg
    rw [processQueryE_code o st g q tok c1 hkey hllm h0]
    unfold runExecPhase
    dsimp only
    rw [hE]
    dsimp only [isFatal, execExcMsg]
    rw [herr, htxt]
    simp only [Bool.true_and]
    rw [show ("" == "") = true from rfl, if_pos rfl]
    rw [show [(⟨st.GROQ_MODEL, 2⟩ : LlmCall)].length = 1 from rfl, h1]
    dsimp only
    rw [hE2]
    dsimp only [isFatal, execExcMsg]
    rw [if_pos hq]
    exact ⟨_, rfl, rfl, rfl⟩

/-- Oracle for the C1 witness: the code prints nothing and saves a 9-byte
plot file without raising. -/
def oWC1 : Oracle :=
  ⟨fun _ => .ok "plot code", fun _ ns _ => ⟨"", none, ns, some 9⟩⟩

/-- Witness for C1's amended theorem at a concrete silent plot request. -/
theorem viz_precedence_amended_witness :
    ∃ out, processQueryE oWC1 ⟨"key", "m"⟩ ⟨[[2]], none, 0⟩ "Plot ages" "t"
        = .ok out ∧
      out.result = ⟨vizMsg, some ("/static/" ++ plotFnameOf "t")⟩ ∧
      out.plotFile = some 9 :=
  (viz_precedence_amended oWC1 ⟨"key", "m"⟩ ⟨[[2]], none, 0⟩ "Plot ages" "t"
    "plot code" (by decide) rfl rfl).1 ""
    (initialNamespace (copyDataset [[2]]) (plotPathOf "t")) 9
    (by decide) rfl (by decide)

/-! ## C3: Retry Controller -/

/-- Oracle for the C3 counterexample: the first execution fails silently;
the regenerated code's execution then fails with a message that happens to
contain a quota phrase. -/
def oC3 : Oracle :=
  ⟨fun n => .ok (if n = 0 then "A" else "B"),
   fun c ns _ =>
     if c = "A" then ⟨"", some (.exc "boom"), ns, none⟩
     else ⟨"", some (.exc "hit the rate limit"), ns, none⟩⟩

/-- C3 counterexample: a retry whose execution fails with a quota-classified
message ends the request with the fixed quota-reached text; the retry's
error message is not embedded in the response. -/
theorem retry_embeds_error_cex :
    processQueryE oC3 ⟨"key", "m"⟩ ⟨[[3]], none, 0⟩ "q" "t" =
      .ok ⟨⟨quotaReachedMsg, none⟩, ⟨[[3]], some "m", 0⟩,
           [⟨"m", 2⟩, ⟨"m", 3⟩],
           [⟨"A", initialNamespace (copyDataset [[3]]) (plotPathOf "t"), none⟩,
            ⟨"B", initialNamespace (copyDataset [[3]]) (plotPathOf "t"), none⟩],
           none⟩ ∧
      strContainsSub quotaReachedMsg "hit the rate limit" = false :=
  ⟨by decide, by decide⟩

/-- C3 (amended): a retry is triggered exactly when the first execution
raised an ordinary error with a truthy (non-empty) message while capturing
no text.  When triggered, exactly one further model call is made, and
exactly one further execution is made exactly when that call succeeds.  If
the retry's model call or execution fails with a non-empty
non-quota-classified error, the final text embeds the retry's error, not
the first attempt's; if either fails with a quota-classified message, the
distinct quota-reached text is returned, embedding neither error. -/
theorem retry_controller_amended (o : Oracle) (st : Settings) (g : GState)
    (q tok c1 : String) (hkey : ¬ st.GROQ_API_KEY = "") (hllm : g.llm = none)
    (h0 : o.llm 0 = .ok c1) :
    (∀ sout serr sns sfile,
      o.exec (cleanCode c1)
          (initialNamespace (copyDataset g.df) (plotPathOf tok)) none
        = ⟨sout, serr, sns, sfile⟩ →
      isFatal serr = none →
      ¬(truthyErr (execExcMsg serr) = true ∧ pyStripStr sout = "") →
      (processQueryE o st g q tok).llmCalls.length = 1 ∧
        (processQueryE o st g q tok).execCalls.length = 1) ∧
    (∀ sout msg1 sns sfile c2,
      o.exec (cleanCode c1)
          (initialNamespace (copyDataset g.df) (plotPathOf tok)) none
        = ⟨sout, some (.exc msg1), sns, sfile⟩ →
      ¬ msg1 = "" → pyStripStr sout = "" → o.llm 1 = .ok c2 →
      (processQueryE o st g q tok).llmCalls.length = 2 ∧
        (processQueryE o st g q tok).execCalls.length = 2) ∧
    (∀ sout msg1 sns sfile c2 sout2 sns2 sfile2 ε2,
      o.exec (cleanCode c1)
          (initialNamespace (copyDataset g.df) (plotPathOf tok)) none
        = ⟨sout, some (.exc msg1), sns, sfile⟩ →
      ¬ msg1 = "" → pyStripStr sout = "" → o.llm 1 = .ok c2 →
      o.exec (cleanCode c2) sns sfile = ⟨sout2, some (.exc ε2), sns2, sfile2⟩ →
      ¬ ε2 = "" → isQuotaError ε2 = false →
      ∃ out, processQueryE o st g q tok = .ok out ∧
        out.llmCalls.length = 2 ∧ out.execCalls.length = 2 ∧
        out.result.response = errResponse ε2) ∧
    (∀ sout msg1 sns sfile c2 sout2 sns2 sfile2 ε2,
      o.exec (cleanCode c1)
          (initialNamespace (copyDataset g.df) (plotPathOf tok)) none
        = ⟨sout, some (.exc msg1), sns, sfile⟩ →
      ¬ msg1 = "" → pyStripStr sout = "" → o.llm 1 = .ok c2 →
      o.exec (cleanCode c2) sns sfile = ⟨sout2, some (.exc ε2), sns2, sfile2⟩ →
      isQuotaError ε2 = true →
      ∃ out, processQueryE o st g q tok = .ok out ∧
        out.llmCalls.length = 2 ∧ out.execCalls.length = 2 ∧
        out.result.response = quotaReachedMsg) ∧
    (∀ sout msg1 sns sfile ε2,
      o.exec (cleanCode c1)
          (initialNamespace (copyDataset g.df) (plotPathOf tok)) none
        = ⟨sout, some (.exc msg1), sns, sfile⟩ →
      ¬ msg1 = "" → pyStripStr sout = "" → o.llm 1 = .error ε2 →
      isQuotaError ε2 = true →
      ∃ out, processQueryE o st g q tok = .ok out ∧
        out.llmCalls.length = 2 ∧ out.execCalls.length = 1 ∧
        out.result.response = quotaReachedMsg) ∧
    (∀ sout msg1 sns sfile ε2,
      o.exec (cleanCode c1)
          (initialNamespace (copyDataset g.df) (plotPathOf tok)) none
        = ⟨sout, some (.exc msg1), sns, sfile⟩ →
      ¬ msg1 = "" → pyStripStr sout = "" → o.llm 1 = .error ε2 →
      isQuotaError ε2 = false → ¬ ε2 = "" →
      ∃ out, processQueryE o st g q tok = .ok out ∧
        out.llmCalls.length = 2 ∧ out.execCalls.length = 1 ∧
        out.result.response = errResponse ε2) := by
  refine ⟨?_, ?_, ?_, ?_, ?_, ?_⟩
  · intro sout serr sns sfile hE hnf hA
    rw [processQueryE_code o st g q tok c1 hkey hllm h0]
    unfold runExecPhase
    dsimp only
    rw [hE]
    dsimp only
    rw [hnf]
    dsimp only
    have hcnd : ¬((truthyErr (execExcMsg serr) && (pyStripStr sout == "")) = true) := by
      intro hcond
      rw [Bool.and_eq_true] at hcond
      exact hA ⟨hcond.1, eq_of_beq hcond.2⟩
    rw [if_neg hcnd]
    exact ⟨rfl, rfl⟩
  · intro sout msg1 sns sfile c2 hE hmsg htxt h1
    have herr : truthyErr (some msg1) = true := bne_iff_ne.mpr hmsg
    rw [processQueryE_code o st g q tok c1 hkey hllm h0]
    unfold runExecPhase
    dsimp only
    rw [hE]
    dsimp only
    rw [show isFatal (some (ExecErr.exc msg1)) = none from rfl]
    dsimp only
    rw [show execExcMsg (some (ExecErr.exc msg1)) = some msg1 from rfl]
    rw [herr, htxt]
    simp only [Bool.true_and]
    rw [show ("" == "") = true from rfl, if_pos rfl]
    rw [show [(⟨st.GROQ_MODEL, 2⟩ : LlmCall)].length = 1 from rfl, h1]
    dsimp only
    cases hf : isFatal (o.exec (cleanCode c2) sns sfile).err with
    | some exc => exact ⟨rfl, rfl⟩
    | none =>
      dsimp only
      cases hm : execExcMsg (o.exec (cleanCode c2) sns sfile).err with
      | none => exact ⟨rfl, rfl⟩
      | some m2 =>
        dsimp only
        by_cases hq2 : isQuotaError m2
        · rw [if_pos hq2]
          exact ⟨rfl, rfl⟩
        · rw [if_neg hq2]
          exact ⟨rfl, rfl⟩
  · intro sout msg1 sns sfile c2 sout2 sns2 sfile2 ε2 hE hmsg htxt h1 hE2 hne hq
    have herr : truthyErr (some msg1) = true := bne_iff_ne.mpr hmsg
    rw [processQueryE_code o st g q tok c1 hkey hllm h0]
    unfold runExecPhase
    dsimp only
    rw [hE]
    dsimp only
    rw [show isFatal (some (ExecErr.exc msg1)) = none from rfl]
    dsimp only
    rw [show execExcMsg (some (ExecErr.exc msg1)) = some msg1 from rfl]
    rw [herr, htxt]
    simp only [Bool.true_and]
    rw [show ("" == "") = true from rfl, if_pos rfl]
    rw [show [(⟨st.GROQ_MODEL, 2⟩ : LlmCall)].length = 1 from rfl, h1]
    dsimp only
    rw [hE2]
    dsimp only
    rw [show isFatal (some (ExecErr.exc ε2)) = none from rfl]
    dsimp only
    rw [show execExcMsg (some (ExecErr.exc ε2)) = some ε2 from rfl]
    dsimp only
    rw [if_neg (by simp [hq])]
    refine ⟨_, rfl, rfl, rfl, ?_⟩
    exact finishRequest_response_err ε2 hne sfile2 (plotFnameOf tok)
  · intro sout msg1 sns sfile c2 sout2 sns2 sfile2 ε2 hE hmsg htxt h1 hE2 hq
    have herr : truthyErr (some msg1) = true := bne_iff_ne.mpr hmsg
    rw [processQueryE_code o st g q tok c1 hkey hllm h0]
    unfold runExecPhase
    dsimp only
    rw [hE]
    dsimp only
    rw [show isFatal (some (ExecErr.exc msg1)) = none from rfl]
    dsimp only
    rw [show execExcMsg (some (ExecErr.exc msg1)) = some msg1 from rfl]
    rw [herr, htxt]
    simp only [Bool.true_and]
    rw [show ("" == "") = true from rfl, if_pos rfl]
    rw [show [(⟨st.GROQ_MODEL, 2⟩ : LlmCall)].length = 1 from rfl, h1]
    dsimp only
    rw [hE2]
    dsimp only
    rw [show isFatal (some (ExecErr.exc ε2)) = none from rfl]
    dsimp only
    rw [show execExcMsg (some (ExecErr.exc ε2)) = some ε2 from rfl]
    dsimp only
    rw [if_pos hq]
    exact ⟨_, rfl, rfl, rfl, rfl⟩
  · intro sout msg1 sns sfile ε2 hE hmsg htxt h1e hq
    have herr : truthyErr (some msg1) = true := bne_iff_ne.mpr hmsg
    rw [processQueryE_code o st g q tok c1 hkey hllm h0]
    unfold runExecPhase
    dsimp only
    rw [hE]
    dsimp only
    rw [show isFatal (some (ExecErr.exc msg1)) = none from rfl]
    dsimp only
    rw [show execExcMsg (some (ExecErr.exc msg1)) = some msg1 from rfl]
    rw [herr, htxt]
    simp only [Bool.true_and]
    rw [show ("" == "") = true from rfl, if_pos rfl]
    rw [show [(⟨st.GROQ_MODEL, 2⟩ : LlmCall)].length = 1 from rfl, h1e]
    dsimp only
    rw [if_pos hq]
    exact ⟨_, rfl, rfl, rfl, rfl⟩
  · intro sout msg1 sns sfile ε2 hE hmsg htxt h1e hq hne
    have herr : truthyErr (some msg1) = true := bne_iff_ne.mpr hmsg
    rw [processQueryE_code o st g q tok c1 hkey hllm h0]
    unfold runExecPhase
    dsimp only
    rw [hE]
    dsimp only
    rw [show isFatal (some (ExecErr.exc msg1)) = none from rfl]
    dsimp only
    rw [show execExcMsg (some (ExecErr.exc msg1)) = some msg1 from rfl]
    rw [herr, htxt]
    simp only [Bool.true_and]
    rw [show ("" == "") = true from rfl, if_pos rfl]
    rw [show [(⟨st.GROQ_MODEL, 2⟩ : LlmCall)].length = 1 from rfl, h1e]
    dsimp only
    rw [if_neg (by simp [hq])]
    refine ⟨_, rfl, rfl, rfl, ?_⟩
    exact finishRequest_response_err ε2 hne _ (plotFnameOf tok)

/-- Oracle for the C3 witness: silent first failure, then a retry whose
execution fails with an ordinary (non-quota) error. -/
def oWC3 : Oracle :=
  ⟨fun n => .ok (if n = 0 then "A" else "B"),
   fun c ns _ =>
     if c = "A" then ⟨"", some (.exc "boom"), ns, none⟩
     else ⟨"", some (.exc "TypeError: bad operand"), ns, none⟩⟩

/-- Witness for C3's amended theorem: the retry happens once and the final
text embeds the retry's error, not the first attempt's "boom". -/
theorem retry_controller_amended_witness :
    ∃ out, processQueryE oWC3 ⟨"key", "m"⟩ ⟨[[4]], none, 0⟩ "q" "t" = .ok out ∧
      out.llmCalls.length = 2 ∧ out.execCalls.length = 2 ∧
      out.result.response = errResponse "TypeError: bad operand" :=
  (retry_controller_amended oWC3 ⟨"key", "m"⟩ ⟨[[4]], none, 0⟩ "q" "t" "A"
    (by decide) rfl rfl).2.2.1 "" "boom"
    (initialNamespace (copyDataset [[4]]) (plotPathOf "t")) none "B" ""
    (initialNamespace (copyDataset [[4]]) (plotPathOf "t")) none
    "TypeError: bad operand" (by decide) (by decide) rfl rfl (by decide)
    (by decide) (by decide)

/-! ## C6: artifact detection -/

/-- Oracle for the C6 counterexample: the code writes a non-empty plot file
and fails silently; the retry's model call is then rate-limited. -/
def oC6 : Oracle :=
  ⟨fun n => if n = 0 then .ok "A" else .error "rate limit",
   fun _ ns _ => ⟨"", some (.exc "boom"), ns, some 7⟩⟩

/-- C6 counterexample: the generated code wrote a non-empty file at the
reserved path, yet the request returns a null image (the quota-classified
retry failure skips the artifact check, and the file is left in place). -/
theorem artifact_detection_cex :
    processQueryE oC6 ⟨"key", "m"⟩ ⟨[[6]], none, 0⟩ "q" "t" =
      .ok ⟨⟨quotaReachedMsg, none⟩, ⟨[[6]], some "m", 0⟩,
           [⟨"m", 2⟩, ⟨"m", 3⟩],
           [⟨"A", initialNamespace (copyDataset [[6]]) (plotPathOf "t"), none⟩],
           some 7⟩ := by
  decide

/-- C6 (amended): whenever the request reaches the artifact check — that
is, unless a quota-classified retry failure aborts it early — a non-empty
file left at the reserved output path becomes a non-null image reference
and is kept, while a zero-byte file yields a null image reference and is
deleted. -/
theorem artifact_detection_amended (o : Oracle) (st : Settings) (g : GState)
    (q tok c1 : String) (hkey : ¬ st.GROQ_API_KEY = "") (hllm : g.llm = none)
    (h0 : o.llm 0 = .ok c1) :
    (∀ sout serr sns n,
      o.exec (cleanCode c1)
          (initialNamespace (copyDataset g.df) (plotPathOf tok)) none
        = ⟨sout, serr, sns, some n⟩ →
      isFatal serr = none →
      ¬(truthyErr (execExcMsg serr) = true ∧ pyStripStr sout = "") →
      ∃ out, processQueryE o st g q tok = .ok out ∧ detectsArtifact tok n out) ∧
    (∀ sout msg1 sns sfile c2 sout2 serr2 sns2 n,
      o.exec (cleanCode c1)
          (initialNamespace (copyDataset g.df) (plotPathOf tok)) none
        = ⟨sout, some (.exc msg1), sns, sfile⟩ →
      ¬ msg1 = "" → pyStripStr sout = "" → o.llm 1 = .ok c2 →
      o.exec (cleanCode c2) sns sfile = ⟨sout2, serr2, sns2, some n⟩ →
      (serr2 = none ∨ ∃ ε, serr2 = some (.exc ε) ∧ isQuotaError ε = false) →
      ∃ out, processQueryE o st g q tok = .ok out ∧ detectsArtifact tok n out) ∧
    (∀ sout msg1 sns n ε2,
      o.exec (cleanCode c1)
          (initialNamespace (copyDataset g.df) (plotPathOf tok)) none
        = ⟨sout, some (.exc msg1), sns, some n⟩ →
      ¬ msg1 = "" → pyStripStr sout = "" → o.llm 1 = .error ε2 →
      isQuotaError ε2 = false →
      ∃ out, processQueryE o st g q tok = .ok out ∧ detectsArtifact tok n out) := by
  refine ⟨?_, ?_, ?_⟩
  · intro sout serr sns n hE hnf hA
    rw [processQueryE_code o st g q tok c1 hkey hllm h0]
    unfold runExecPhase
    dsimp only
    rw [hE]
    dsimp only
    rw [hnf]
    dsimp only
    have hcnd : ¬((truthyErr (execExcMsg serr) && (pyStripStr sout == "")) = true) := by
      intro hcond
      rw [Bool.and_eq_true] at hcond
      exact hA ⟨hcond.1, eq_of_beq hcond.2⟩
    rw [if_neg hcnd]
    exact ⟨_, rfl,
      finishRequest_detect (pyStripStr sout) (execExcMsg serr) n (plotFnameOf tok)⟩
  · intro sout msg1 sns sfile c2 sout2 serr2 sns2 n hE hmsg htxt h1 hE2 hok
    have herr : truthyErr (some msg1) = true := bne_iff_ne.mpr hmsg
    rw [processQueryE_code o st g q tok c1 hkey hllm h0]
    unfold runExecPhase
    dsimp only
    rw [hE]
    dsimp only
    rw [show isFatal (some (ExecErr.exc msg1)) = none from rfl]
    dsimp only
    rw [show execExcMsg (some (ExecErr.exc msg1)) = some msg1 from rfl]
    rw [herr, htxt]
    simp only [Bool.true_and]
    rw [show ("" == "") = true from rfl, if_pos rfl]
    rw [show [(⟨st.GROQ_MODEL, 2⟩ : LlmCall)].length = 1 from rfl, h1]
    dsimp only
    rcases hok with hnone | ⟨ε, hsome, hq⟩
    · subst hnone
      rw [hE2]
      dsimp only
      exact ⟨_, rfl,
        finishRequest_detect (pyStripStr sout2) none n (plotFnameOf tok)⟩
    · subst hsome
      rw [hE2]
      dsimp only
      rw [show isFatal (some (ExecErr.exc ε)) = none from rfl]
      dsimp only
      rw [show execExcMsg (some (ExecErr.exc ε)) = some ε from rfl]
      dsimp only
      rw [if_neg (by simp [hq])]
      exact ⟨_, rfl, finishRequest_detect "" (some ε) n (plotFnameOf tok)⟩
  · intro sout msg1 sns n ε2 hE hmsg htxt h1e hq
    have herr : truthyErr (some msg1) = true := bne_iff_ne.mpr hmsg
    rw [processQueryE_code o st g q tok c1 hkey hllm h0]
    unfold runExecPhase
    dsimp only
    rw [hE]
    dsimp only
    rw [show isFatal (some (ExecErr.exc msg1)) = none from rfl]
    dsimp only
    rw [show execExcMsg (some (ExecErr.exc msg1)) = some msg1 from rfl]
    rw [herr, htxt]
    simp only [Bool.true_and]
    rw [show ("" == "") = true from rfl, if_pos rfl]
    rw [show [(⟨st.GROQ_MODEL, 2⟩ : LlmCall)].length = 1 from rfl, h1e]
    dsimp only
    rw [if_neg (by simp [hq])]
    exact ⟨_, rfl, finishRequest_detect "" (some ε2) n (plotFnameOf tok)⟩

/-- Oracle for the C6 witness: a clean execution that prints a sentence and
saves a 3-byte plot file. -/
def oWC6 : Oracle :=
  ⟨fun _ => .ok "plot code",
   fun _ ns _ => ⟨"Here is a chart.", none, ns, some 3⟩⟩

/-- Witness for C6's amended theorem at a concrete clean plot request. -/
theorem artifact_detection_amended_witness :
    ∃ out, processQueryE oWC6 ⟨"key", "m"⟩ ⟨[[8]], none, 0⟩ "Plot ages" "t"
        = .ok out ∧ detectsArtifact "t" 3 out :=
  (artifact_detection_amended oWC6 ⟨"key", "m"⟩ ⟨[[8]], none, 0⟩ "Plot ages" "t"
    "plot code" (by decide) rfl rfl).1 "Here is a chart." none
    (initialNamespace (copyDataset [[8]]) (plotPathOf "t")) 3
    (by decide) rfl (by decide)
